import Mathlib

/-!
Verification of the AWS Secrets Manager RDS MariaDB multi-user rotation lambda
(`SecretsManagerRDSMariaDBRotationMultiUser/lambda_function.py`).

The Python source is shallowly embedded:
* Python strings are modelled as `List Char` (Python `len`, `endswith` and
  slicing operate on code points, exactly as `List Char` does);
* the external collaborators (Secrets Manager client, pymysql connection,
  RDS inventory client) are modelled as oracle parameters supplied in an
  environment record, and the side effects issued through them are recorded
  in an explicit event trace;
* raised exceptions become `Except` error values.
-/

namespace RotationLambda

/-- Decidable equality for `Except`, so concrete runs can be checked by `decide`. -/
instance {ε α : Type} [DecidableEq ε] [DecidableEq α] : DecidableEq (Except ε α)
  | .ok a, .ok b =>
    if h : a = b then .isTrue (by rw [h]) else .isFalse (by intro hc; cases hc; exact h rfl)
  | .error a, .error b =>
    if h : a = b then .isTrue (by rw [h]) else .isFalse (by intro hc; cases hc; exact h rfl)
  | .ok _, .error _ => .isFalse (by intro hc; cases hc)
  | .error _, .ok _ => .isFalse (by intro hc; cases hc)

/-- Python strings, modelled as lists of characters. -/
abbrev PyStr := List Char

/-! ## Alternate-identity resolver: `get_alt_username` -/

/-- Literal `"_clone"` from the source (`clone_suffix = "_clone"`). -/
def cloneSuffix : PyStr := "_clone".data

/-- Embedding of `get_alt_username(current_username)`:
if the username ends with `_clone`, strip the suffix
(`current_username[:(len(clone_suffix) * -1)]`, i.e. drop the last six
characters); otherwise append `_clone`, raising `ValueError` when the result
would exceed 80 characters. -/
def get_alt_username (current_username : PyStr) : Except String PyStr :=
  if cloneSuffix.isSuffixOf current_username then
    .ok (current_username.take (current_username.length - cloneSuffix.length))
  else
    let new_username := current_username ++ cloneSuffix
    if new_username.length > 80 then
      .error "Unable to clone user, username length with _clone appended would exceed 80 characters"
    else
      .ok new_username

/-! ## Replica topology checker: `is_rds_replica_database` -/

/-- Python `host.split(".")` for the single-character separator `'.'`
(returns at least one piece; adjacent separators yield empty pieces). -/
def pySplitDot : PyStr → List PyStr
  | [] => [[]]
  | c :: rest =>
    if c = '.' then [] :: pySplitDot rest
    else
      match pySplitDot rest with
      | [] => [[c]]
      | piece :: pieces => (c :: piece) :: pieces

/-- Instance identifier derived from a host name: `host.split(".")[0]`. -/
def instanceId (host : PyStr) : PyStr := (pySplitDot host).headD []

/-- Result record of the RDS inventory lookup: the one field the code reads,
`ReadReplicaSourceDBInstanceIdentifier`, absent (`None`) when the instance is
not a replica. -/
structure RdsInstance where
  readReplicaSourceDBInstanceIdentifier : Option PyStr
deriving DecidableEq, Repr

/-- Outcome of `rds_client.describe_db_instances(DBInstanceIdentifier=...)`:
either the call raises some exception, or it returns a (possibly empty) list
of instances. -/
inductive DescribeResult where
  | raised
  | ok (instances : List RdsInstance)
deriving DecidableEq, Repr

/-- Secret payload dictionary after validation (`get_secret_dict`): the
required fields plus the optional ones the rotation code reads. -/
structure SecretDict where
  engine : PyStr
  host : PyStr
  username : PyStr
  password : PyStr
  dbname : Option PyStr
  port : Option Nat
  masterarn : Option PyStr
deriving DecidableEq, Repr

/-- Embedding of `is_rds_replica_database(replica_dict, master_dict)`.
The inventory API is the oracle `describe`, keyed by the queried instance
identifier. Any exception from the query, or an empty instance list, yields
`false`; otherwise the first instance's recorded replication source is
compared with the master's derived identifier (Python
`master_instance_id == current_instance.get('ReadReplicaSourceDBInstanceIdentifier')`,
which is `False` when the key is absent). -/
def is_rds_replica_database (replica_dict master_dict : SecretDict)
    (describe : PyStr → DescribeResult) : Bool :=
  let replica_instance_id := instanceId replica_dict.host
  let master_instance_id := instanceId master_dict.host
  match describe replica_instance_id with
  | .raised => false
  | .ok instances =>
    match instances with
    | [] => false
    | current_instance :: _ =>
      match current_instance.readReplicaSourceDBInstanceIdentifier with
      | none => false
      | some src => master_instance_id = src

/-! ## setSecret: grant replication with an explicit effect trace -/

/-- Connections opened by `set_secret`, in order of appearance in the code:
the probe with the pending secret, the probe with the current secret, and the
master connection used for grant replication. -/
inductive Conn where
  | pending
  | current
  | master
deriving DecidableEq, Repr

/-- Observable database effects of a `set_secret` run. `showGrants` is the
read-only `SHOW GRANTS FOR %s` enumeration; `execGrant` is one rewritten
grant statement executed with the pending username/password as parameters;
`commit` and `closeConn` are the transaction commit and connection closes. -/
inductive DbEvent where
  | showGrants (user : PyStr)
  | execGrant (stmt : PyStr) (user pass : PyStr)
  | commit
  | closeConn (c : Conn)
deriving DecidableEq, Repr

/-- Database write effects: executed grant statements and the commit.
`SHOW GRANTS` and connection closes are not writes. -/
def isDbWriteEvent : DbEvent → Bool
  | .execGrant _ _ _ => true
  | .commit => true
  | _ => false

/-- Python `s.split(sep)[0]` for a non-empty separator: the text before the
first occurrence of `sep` (the whole string when `sep` does not occur). -/
def beforeSep (sep : PyStr) : PyStr → PyStr
  | [] => []
  | c :: rest => if sep.isPrefixOf (c :: rest) then [] else c :: beforeSep sep rest

/-- Python `s.replace('%', '%%')`, doubling every percent sign. -/
def escapePercent : PyStr → PyStr
  | [] => []
  | c :: rest =>
    if c = '%' then '%' :: '%' :: escapePercent rest else c :: escapePercent rest

/-- The rewritten grant statement text for one `SHOW GRANTS` row:
`grant = row[0].split(' TO ')`, `new_grant_escaped = grant[0].replace('%','%%')`,
executed as `f"{new_grant_escaped} TO %s IDENTIFIED BY %s"`. -/
def grantStmt (row : PyStr) : PyStr :=
  escapePercent (beforeSep " TO ".data row) ++ " TO %s IDENTIFIED BY %s".data

/-- Runs the grant-replication loop on the master cursor: statements are
executed in row order; the first failing execution raises, skipping the rest.
Returns the events issued and whether every statement succeeded. -/
def runGrants (execOk : PyStr → Bool) (user pass : PyStr) :
    List PyStr → List DbEvent × Bool
  | [] => ([], true)
  | row :: rest =>
    let stmt := grantStmt row
    if execOk stmt then
      let r := runGrants execOk user pass rest
      (.execGrant stmt user pass :: r.1, r.2)
    else
      ([.execGrant stmt user pass], false)

/-- Errors raised by `set_secret` (each a `ValueError`/`KeyError` in the
source, tagged here by the condition that raises it). -/
inductive SetSecretError where
  | altUsername (msg : String)
  | userMismatch
  | hostMismatch
  | currentLoginFailed
  | missingMasterArn
  | untrustedHost
  | masterLoginFailed
  | grantExecFailed
deriving DecidableEq, Repr

/-- Environment for one `set_secret` run: the three secret payloads (the
current and pending versions of the rotated secret, and the master secret,
all fetched through `get_secret_dict`, assumed to parse), the outcomes of the
three login attempts, the RDS inventory oracle, the rows returned by
`SHOW GRANTS FOR` the current user, and whether each rewritten grant
statement executes without raising. -/
structure SetSecretEnv where
  current_dict : SecretDict
  pending_dict : SecretDict
  master_dict : SecretDict
  pendingLoginOk : Bool
  currentLoginOk : Bool
  masterLoginOk : Bool
  describe : PyStr → DescribeResult
  grantRows : List PyStr
  execOk : PyStr → Bool

/-- Embedding of `set_secret(service_client, arn, token)`: probe with the
pending secret and return if it works; check the pending username is the
alternate of the current one and the hosts match; prove the current
credential valid; require the current host to equal the master host or be a
confirmed read replica of it; log in as master; replicate the current user's
grants onto the pending identity; commit once after all statements succeed,
closing the master connection on both the success and the failure path
(`try`/`finally`). Returns the result and the event trace. -/
def set_secret (env : SetSecretEnv) : Except SetSecretError Unit × List DbEvent :=
  if env.pendingLoginOk then
    (.ok (), [.closeConn .pending])
  else
    match get_alt_username env.current_dict.username with
    | .error msg => (.error (.altUsername msg), [])
    | .ok alt =>
      if alt ≠ env.pending_dict.username then
        (.error .userMismatch, [])
      else if env.current_dict.host ≠ env.pending_dict.host then
        (.error .hostMismatch, [])
      else if ¬ env.currentLoginOk then
        (.error .currentLoginFailed, [])
      else
        match env.current_dict.masterarn with
        | none => (.error .missingMasterArn, [.closeConn .current])
        | some _ =>
          if env.current_dict.host ≠ env.master_dict.host ∧
              ¬ is_rds_replica_database env.current_dict env.master_dict env.describe then
            (.error .untrustedHost, [.closeConn .current])
          else if ¬ env.masterLoginOk then
            (.error .masterLoginFailed, [.closeConn .current])
          else
            let r := runGrants env.execOk env.pending_dict.username
              env.pending_dict.password env.grantRows
            if r.2 then
              (.ok (), .closeConn .current :: .showGrants env.current_dict.username ::
                (r.1 ++ [.commit, .closeConn .master]))
            else
              (.error .grantExecFailed, .closeConn .current ::
                .showGrants env.current_dict.username :: (r.1 ++ [.closeConn .master]))

/-! ## createSecret -/

/-- Outcome of `get_secret_dict(service_client, arn, "AWSPENDING", token)`
inside `create_secret`: the version exists, it is missing
(`ResourceNotFoundException`, the only exception caught), or the fetch fails
with some other exception, which propagates. -/
inductive PendingFetch where
  | found (d : SecretDict)
  | notFound
  | otherError
deriving Repr

/-- Secrets Manager effects of a `create_secret` run: the random-password
generation call and the `put_secret_value` write. -/
inductive StoreEvent where
  | genPassword
  | putSecretValue (token : String) (value : SecretDict) (stages : List String)
deriving DecidableEq, Repr

/-- Errors raised by `create_secret`. -/
inductive CreateSecretError where
  | altUsername (msg : String)
  | pendingFetchFailed
deriving DecidableEq, Repr

/-- Environment for one `create_secret` run: the current secret payload, the
outcome of the pending-version fetch, the random password the service
returns, and the request token. -/
structure CreateSecretEnv where
  current_dict : SecretDict
  pendingFetch : PendingFetch
  randomPassword : PyStr
  token : String

/-- Embedding of `create_secret(service_client, arn, token)`: if a pending
version already exists at the token, return with no writes; otherwise
resolve the alternate username, generate a random password, and store the
current payload with only `username` and `password` replaced as the
`AWSPENDING` version at the token. -/
def create_secret (env : CreateSecretEnv) :
    Except CreateSecretError Unit × List StoreEvent :=
  match env.pendingFetch with
  | .found _ => (.ok (), [])
  | .otherError => (.error .pendingFetchFailed, [])
  | .notFound =>
    match get_alt_username env.current_dict.username with
    | .error msg => (.error (.altUsername msg), [])
    | .ok alt =>
      (.ok (), [.genPassword,
        .putSecretValue env.token
          { env.current_dict with username := alt, password := env.randomPassword }
          ["AWSPENDING"]])

/-! ## Rotation coordinator: `lambda_handler` -/

/-- Subset of `describe_secret` metadata the handler reads: the optional
`RotationEnabled` flag and the `VersionIdsToStages` mapping (a dict, hence
unique keys, embedded as an association list). -/
structure SecretMetadata where
  rotationEnabled : Option Bool
  versionIdsToStages : List (String × List String)

/-- Coordinator-level errors (each a `ValueError` in the source). -/
inductive HandlerError where
  | rotationNotEnabled
  | unknownToken
  | stageMismatch
  | invalidStep (step : String)
deriving DecidableEq, Repr

/-- Successful handler outcomes: the idempotent early return when the token's
version is already `AWSCURRENT`, or dispatch to the named step handler. -/
inductive HandlerOutcome where
  | noop
  | dispatched (step : String)
deriving DecidableEq, Repr

/-- Python `versions[token]` lookup: first matching key of the association
list, `none` when the token is absent. -/
def lookupVersion (token : String) : List (String × List String) → Option (List String)
  | [] => none
  | (v, stages) :: rest => if v = token then some stages else lookupVersion token rest

/-- Embedding of the gate and dispatch of `lambda_handler(event, context)`:
fail when rotation is explicitly disabled (`RotationEnabled` present and
falsy); fail when the token has no entry in `VersionIdsToStages`; return
successfully when the token's version carries `AWSCURRENT`; fail when it does
not carry `AWSPENDING`; otherwise dispatch on the step name, failing on an
unrecognized step. -/
def lambda_handler (metadata : SecretMetadata) (token step : String) :
    Except HandlerError HandlerOutcome :=
  if metadata.rotationEnabled = some false then
    .error .rotationNotEnabled
  else
    match lookupVersion token metadata.versionIdsToStages with
    | none => .error .unknownToken
    | some stages =>
      if "AWSCURRENT" ∈ stages then
        .ok .noop
      else if "AWSPENDING" ∉ stages then
        .error .stageMismatch
      else if step = "createSecret" then
        .ok (.dispatched "createSecret")
      else if step = "setSecret" then
        .ok (.dispatched "setSecret")
      else if step = "testSecret" then
        .ok (.dispatched "testSecret")
      else if step = "finishSecret" then
        .ok (.dispatched "finishSecret")
      else
        .error (.invalidStep step)

/-! ## finishSecret -/

/-- The loop of `finish_secret` over `metadata["VersionIdsToStages"]`: the
first version whose stages contain `AWSCURRENT`, if any. -/
def findCurrent : List (String × List String) → Option String
  | [] => none
  | (v, stages) :: rest =>
    if "AWSCURRENT" ∈ stages then some v else findCurrent rest

/-- Embedding of `update_secret_version_stage(SecretId, VersionStage="AWSCURRENT",
MoveToVersionId=moveTo, RemoveFromVersionId=removeFrom)`: the label is added
to `moveTo`'s stage set and removed from `removeFrom`'s. -/
def update_secret_version_stage (versions : List (String × List String))
    (moveTo : String) (removeFrom : Option String) : List (String × List String) :=
  versions.map fun p =>
    let stages1 := if some p.1 = removeFrom then p.2.erase "AWSCURRENT" else p.2
    if p.1 = moveTo then
      (p.1, if "AWSCURRENT" ∈ stages1 then stages1 else stages1 ++ ["AWSCURRENT"])
    else
      (p.1, stages1)

/-- Embedding of `finish_secret(service_client, arn, token)`: find the first
version labeled `AWSCURRENT`; if it is the token's version, return without
writing; otherwise issue one `update_secret_version_stage` call moving the
label onto the token's version. Returns the updated mapping and the number of
label-move operations issued. -/
def finish_secret (versions : List (String × List String)) (token : String) :
    List (String × List String) × Nat :=
  match findCurrent versions with
  | some v =>
    if v = token then (versions, 0)
    else (update_secret_version_stage versions token (some v), 1)
  | none => (update_secret_version_stage versions token none, 1)

/-- Number of versions whose stage set contains `AWSCURRENT`. -/
def countCurrent (versions : List (String × List String)) : Nat :=
  versions.countP fun p => decide ("AWSCURRENT" ∈ p.2)

example : get_alt_username "bob".data = .ok "bob_clone".data := by decide
example : get_alt_username "bob_clone".data = .ok "bob".data := by decide
example : get_alt_username "_clone".data = .ok [] := by decide
example : instanceId "db1.abc.rds".data = "db1".data := by decide
example : instanceId "nodot".data = "nodot".data := by decide

/-! ## Helper lemmas -/

/-- A Python split always returns at least one piece. -/
theorem pySplitDot_ne_nil (s : PyStr) : pySplitDot s ≠ [] := by
  cases s with
  | nil => simp [pySplitDot]
  | cons c rest =>
    by_cases hc : c = '.'
    · simp [pySplitDot, hc]
    · simp only [pySplitDot, if_neg hc]
      cases h : pySplitDot rest <;> simp

/-- The first piece of a Python dot-split is the prefix before the first dot. -/
theorem instanceId_eq_takeWhile (host : PyStr) :
    instanceId host = host.takeWhile (fun c => c ≠ '.') := by
  induction host with
  | nil => rfl
  | cons c rest ih =>
    by_cases hc : c = '.'
    · subst hc
      simp [instanceId, pySplitDot, List.takeWhile_cons]
    · simp only [instanceId, pySplitDot, if_neg hc] at ih ⊢
      cases h : pySplitDot rest with
      | nil => exact absurd h (pySplitDot_ne_nil rest)
      | cons piece pieces =>
        rw [h] at ih
        simp only [List.headD_cons] at ih ⊢
        simp only [ne_eq, decide_not] at ih ⊢
        simp [List.takeWhile_cons, hc, ← ih]

/-- Stripping the clone suffix from a username that ends in it and appending
it back restores the username. -/
theorem strip_append_clone {p : PyStr} :
    (p ++ cloneSuffix).take ((p ++ cloneSuffix).length - cloneSuffix.length) = p := by
  rw [List.length_append, Nat.add_sub_cancel]
  exact List.take_left p cloneSuffix

/-! ## C4: replica topology check -/

/-- C4 (confirmed): `is_rds_replica_database` derives each instance
identifier as the substring of the host before its first `.`, returns `false`
when the inventory query raises or returns no instance, and otherwise returns
`true` exactly when the candidate's recorded replication source equals the
master's derived identifier. -/
theorem is_rds_replica_database_spec :
    (∀ host : PyStr, instanceId host = host.takeWhile (fun c => c ≠ '.')) ∧
    (∀ (replica master : SecretDict) (describe : PyStr → DescribeResult),
      describe (instanceId replica.host) = .raised →
      is_rds_replica_database replica master describe = false) ∧
    (∀ (replica master : SecretDict) (describe : PyStr → DescribeResult),
      describe (instanceId replica.host) = .ok [] →
      is_rds_replica_database replica master describe = false) ∧
    (∀ (replica master : SecretDict) (describe : PyStr → DescribeResult)
        (inst : RdsInstance) (rest : List RdsInstance),
      describe (instanceId replica.host) = .ok (inst :: rest) →
      (is_rds_replica_database replica master describe = true ↔
        inst.readReplicaSourceDBInstanceIdentifier = some (instanceId master.host))) := by
  refine ⟨instanceId_eq_takeWhile, ?_, ?_, ?_⟩
  · intro replica master describe h
    simp [is_rds_replica_database, h]
  · intro replica master describe h
    simp [is_rds_replica_database, h]
  · intro replica master describe inst rest h
    cases hsrc : inst.readReplicaSourceDBInstanceIdentifier with
    | none => simp [is_rds_replica_database, h, hsrc]
    | some src =>
      simp only [is_rds_replica_database, h, hsrc]
      constructor
      · intro heq
        rw [Option.some_inj, eq_comm]
        exact of_decide_eq_true heq
      · intro heq
        rw [Option.some_inj] at heq
        exact decide_eq_true heq.symm

/-- Witness for C4: a concrete replica host `db2.x.rds`, master host
`db1.x.rds`, and an inventory answer recording `db1` as the replication
source. -/
theorem is_rds_replica_database_spec_witness :
    is_rds_replica_database
      { engine := "mariadb".data, host := "db2.x.rds".data, username := "u".data,
        password := "p".data, dbname := none, port := none, masterarn := none }
      { engine := "mariadb".data, host := "db1.x.rds".data, username := "m".data,
        password := "q".data, dbname := none, port := none, masterarn := none }
      (fun _ => .ok [⟨some "db1".data⟩]) = true := by
  have h := (is_rds_replica_database_spec).2.2.2
    { engine := "mariadb".data, host := "db2.x.rds".data, username := "u".data,
      password := "p".data, dbname := none, port := none, masterarn := none }
    { engine := "mariadb".data, host := "db1.x.rds".data, username := "m".data,
      password := "q".data, dbname := none, port := none, masterarn := none }
    (fun _ => .ok [⟨some "db1".data⟩]) ⟨some "db1".data⟩ [] (by decide)
  exact h.mpr (by decide)

/-! ## C5: involution of the alternate-identity resolver -/

/-- C5 (counterexample): the resolver is not an involution on every username
on which it does not fail: on `app_user_clone_clone` both applications
succeed, yet the result `app_user` differs from the input. -/
theorem get_alt_username_double_clone_cex :
    get_alt_username "app_user_clone_clone".data = .ok "app_user_clone".data ∧
    get_alt_username "app_user_clone".data = .ok "app_user".data ∧
    ("app_user".data : PyStr) ≠ "app_user_clone_clone".data := by
  refine ⟨by decide, by decide, by decide⟩

/-- C5 (amended): the resolver is an involution on every valid username that
does not end in the doubled suffix `_clone_clone`: whenever both applications
succeed, the result is the original username. -/
theorem get_alt_username_involution (u v w : PyStr)
    (hd : ¬ ("_clone_clone".data <:+ u))
    (h1 : get_alt_username u = .ok v)
    (h2 : get_alt_username v = .ok w) : w = u := by
  unfold get_alt_username at h1
  by_cases hs : cloneSuffix.isSuffixOf u
  · rw [if_pos hs] at h1
    obtain ⟨p, hp⟩ := List.isSuffixOf_iff_suffix.mp hs
    subst hp
    rw [strip_append_clone] at h1
    have hv : v = p := (Except.ok.inj h1).symm
    rw [hv] at h2
    have hps : ¬ cloneSuffix.isSuffixOf p := by
      intro hps
      obtain ⟨q, hq⟩ := List.isSuffixOf_iff_suffix.mp hps
      have hcc : ("_clone_clone".data : PyStr) = cloneSuffix ++ cloneSuffix := by decide
      refine hd ⟨q, ?_⟩
      rw [hcc, ← hq, List.append_assoc]
    unfold get_alt_username at h2
    rw [if_neg hps] at h2
    by_cases hl : (p ++ cloneSuffix).length > 80
    · rw [if_pos hl] at h2
      exact absurd h2 (by simp)
    · rw [if_neg hl] at h2
      exact (Except.ok.inj h2).symm
  · rw [if_neg hs] at h1
    by_cases hl : (u ++ cloneSuffix).length > 80
    · rw [if_pos hl] at h1
      exact absurd h1 (by simp)
    · rw [if_neg hl] at h1
      obtain rfl : u ++ cloneSuffix = v := Except.ok.inj h1
      unfold get_alt_username at h2
      rw [if_pos (List.isSuffixOf_iff_suffix.mpr (List.suffix_append u cloneSuffix))] at h2
      rw [strip_append_clone] at h2
      exact (Except.ok.inj h2).symm

/-- Witness for C5 (amended): `bob` resolves to `bob_clone` and back. -/
theorem get_alt_username_involution_witness : ("bob".data : PyStr) = "bob".data :=
  get_alt_username_involution "bob".data "bob_clone".data "bob".data
    (by decide) (by decide) (by decide)

/-! ## C10: the suffix-stripping branch performs no validation -/

/-- C10 (confirmed): for every username ending in `_clone` the resolver
returns the prefix with no length or non-emptiness check, and in particular
the input `_clone` yields the empty username. -/
theorem get_alt_username_strip_no_validation :
    (∀ u : PyStr, cloneSuffix.isSuffixOf u = true →
      get_alt_username u = .ok (u.take (u.length - cloneSuffix.length))) ∧
    get_alt_username "_clone".data = .ok [] := by
  constructor
  · intro u hs
    unfold get_alt_username
    rw [if_pos hs]
  · decide

/-- Witness for C10: the general branch applied to the concrete input
`_clone` yields the empty username. -/
theorem get_alt_username_strip_no_validation_witness :
    get_alt_username "_clone".data = .ok ("_clone".data.take ("_clone".data.length - cloneSuffix.length)) :=
  (get_alt_username_strip_no_validation).1 "_clone".data (by decide)

/-! ## C6: failure condition of the resolver and its effect on createSecret -/

/-- C6 (counterexample): for the 81-character username consisting of 75 `a`s
followed by `_clone`, the length bound of the claim holds
(`len(u) + len("_clone") > 80`) yet the resolver succeeds, so the claimed
equivalence is false. -/
theorem get_alt_username_overlong_clone_cex :
    (List.replicate 75 'a' ++ cloneSuffix).length + cloneSuffix.length > 80 ∧
    get_alt_username (List.replicate 75 'a' ++ cloneSuffix) =
      .ok (List.replicate 75 'a') := by
  refine ⟨by decide, ?_⟩
  rw [(get_alt_username_strip_no_validation).1 _
      (List.isSuffixOf_iff_suffix.mpr (List.suffix_append _ cloneSuffix)), strip_append_clone]

/-- C6 (amended): the resolver fails with the username-too-long error iff the
username does not end with `_clone` and its length plus the suffix length
exceeds 80; and whenever it fails, `create_secret` generates no random
password and performs no store write (its effect trace is empty). -/
theorem get_alt_username_failure_iff :
    (∀ u : PyStr, (∃ e, get_alt_username u = .error e) ↔
      (cloneSuffix.isSuffixOf u = false ∧ u.length + cloneSuffix.length > 80)) ∧
    (∀ (env : CreateSecretEnv) (msg : String),
      get_alt_username env.current_dict.username = .error msg →
      (create_secret env).2 = []) := by
  constructor
  · intro u
    unfold get_alt_username
    cases hs : cloneSuffix.isSuffixOf u with
    | true => simp [hs]
    | false =>
      simp only [hs, Bool.false_eq_true, if_false, true_and]
      rw [List.length_append]
      by_cases hl : u.length + cloneSuffix.length > 80
      · simp [hl]
      · simp [hl]
  · intro env msg h
    unfold create_secret
    cases hf : env.pendingFetch with
    | found d => rfl
    | otherError => rfl
    | notFound => rw [h]

/-- Witness for C6 (amended): a 76-character base username without the suffix
makes the resolver fail, and `create_secret` for it issues no effects. -/
theorem get_alt_username_failure_iff_witness :
    (∃ e, get_alt_username (List.replicate 76 'a') = .error e) ∧
    (create_secret
      { current_dict :=
          { engine := "mariadb".data, host := "h".data,
            username := List.replicate 76 'a', password := "p".data,
            dbname := none, port := none, masterarn := none },
        pendingFetch := .notFound, randomPassword := "r".data,
        token := "tok" }).2 = [] := by
  constructor
  · exact ((get_alt_username_failure_iff).1 (List.replicate 76 'a')).mpr (by decide)
  · exact (get_alt_username_failure_iff).2 _
      "Unable to clone user, username length with _clone appended would exceed 80 characters"
      (by decide)

/-! ## C1 and C9: coordinator gate -/

/-- C1 (confirmed): the coordinator gate runs before any step handler: it
fails when rotation is explicitly disabled; it fails when the token has no
entry in the version-to-stage mapping; it returns success with no dispatch
when the token's version carries `AWSCURRENT`; it fails with a stage-mismatch
error when the version carries neither `AWSCURRENT` nor `AWSPENDING`; only
otherwise is the named step handler dispatched, and an unrecognized step name
fails with the invalid-step error. -/
theorem lambda_handler_gate (metadata : SecretMetadata) (token step : String) :
    (metadata.rotationEnabled = some false →
      lambda_handler metadata token step = .error .rotationNotEnabled) ∧
    (metadata.rotationEnabled ≠ some false →
      lookupVersion token metadata.versionIdsToStages = none →
      lambda_handler metadata token step = .error .unknownToken) ∧
    (∀ stages, metadata.rotationEnabled ≠ some false →
      lookupVersion token metadata.versionIdsToStages = some stages →
      "AWSCURRENT" ∈ stages →
      lambda_handler metadata token step = .ok .noop) ∧
    (∀ stages, metadata.rotationEnabled ≠ some false →
      lookupVersion token metadata.versionIdsToStages = some stages →
      "AWSCURRENT" ∉ stages → "AWSPENDING" ∉ stages →
      lambda_handler metadata token step = .error .stageMismatch) ∧
    (∀ stages, metadata.rotationEnabled ≠ some false →
      lookupVersion token metadata.versionIdsToStages = some stages →
      "AWSCURRENT" ∉ stages → "AWSPENDING" ∈ stages →
      (step = "createSecret" ∨ step = "setSecret" ∨ step = "testSecret" ∨
          step = "finishSecret") →
      lambda_handler metadata token step = .ok (.dispatched step)) ∧
    (∀ stages, metadata.rotationEnabled ≠ some false →
      lookupVersion token metadata.versionIdsToStages = some stages →
      "AWSCURRENT" ∉ stages → "AWSPENDING" ∈ stages →
      step ≠ "createSecret" → step ≠ "setSecret" → step ≠ "testSecret" →
      step ≠ "finishSecret" →
      lambda_handler metadata token step = .error (.invalidStep step)) := by
  refine ⟨?_, ?_, ?_, ?_, ?_, ?_⟩
  · intro hdis
    simp [lambda_handler, hdis]
  · intro hdis hlook
    simp [lambda_handler, hdis, hlook]
  · intro stages hdis hlook hcur
    simp [lambda_handler, hdis, hlook, hcur]
  · intro stages hdis hlook hcur hpend
    simp [lambda_handler, hdis, hlook, hcur, hpend]
  · intro stages hdis hlook hcur hpend hstep
    rcases hstep with h | h | h | h <;>
      simp [lambda_handler, hdis, hlook, hcur, hpend, h]
  · intro stages hdis hlook hcur hpend h1 h2 h3 h4
    simp [lambda_handler, hdis, hlook, hcur, hpend, h1, h2, h3, h4]

/-- Witness for C1: on a mapping where the token's version carries only
`AWSPENDING`, an unrecognized step name fails with the invalid-step error. -/
theorem lambda_handler_gate_witness :
    lambda_handler ⟨some true, [("tok", ["AWSPENDING"])]⟩ "tok" "rotateEverything" =
      .error (.invalidStep "rotateEverything") :=
  (lambda_handler_gate ⟨some true, [("tok", ["AWSPENDING"])]⟩ "tok"
      "rotateEverything").2.2.2.2.2 ["AWSPENDING"]
    (by decide) (by decide) (by decide) (by decide)
    (by decide) (by decide) (by decide) (by decide)

/-- C9 (confirmed): whenever the token's version carries `AWSCURRENT` (and
rotation is not disabled), the handler returns success before step dispatch,
for every step string, so no step handler runs and no invalid-step error is
raised even when the step field is unrecognized. -/
theorem lambda_handler_current_noop (metadata : SecretMetadata)
    (token step : String) (stages : List String)
    (hdis : metadata.rotationEnabled ≠ some false)
    (hlook : lookupVersion token metadata.versionIdsToStages = some stages)
    (hcur : "AWSCURRENT" ∈ stages) :
    lambda_handler metadata token step = .ok .noop := by
  simp [lambda_handler, hdis, hlook, hcur]

/-- Witness for C9: a token already staged `AWSCURRENT` yields the no-op
success even for a garbage step name. -/
theorem lambda_handler_current_noop_witness :
    lambda_handler ⟨none, [("tok", ["AWSCURRENT"])]⟩ "tok" "notARealStep" = .ok .noop :=
  lambda_handler_current_noop ⟨none, [("tok", ["AWSCURRENT"])]⟩ "tok"
    "notARealStep" ["AWSCURRENT"] (by decide) (by decide) (by decide)

/-! ## C2 and C3: setSecret grant replication and host trust -/

/-- The grant loop emits only grant executions, never a commit. -/
theorem runGrants_no_commit (execOk : PyStr → Bool) (u p : PyStr) (rows : List PyStr) :
    DbEvent.commit ∉ (runGrants execOk u p rows).1 := by
  induction rows with
  | nil => simp [runGrants]
  | cons row rest ih =>
    by_cases h : execOk (grantStmt row)
    · simp [runGrants, h, ih]
    · simp [runGrants, h]

/-- When every rewritten statement executes successfully, the grant loop
emits one execution per row, in order, and reports success. -/
theorem runGrants_all_ok (execOk : PyStr → Bool) (u p : PyStr) (rows : List PyStr)
    (h : ∀ row ∈ rows, execOk (grantStmt row) = true) :
    runGrants execOk u p rows =
      (rows.map fun row => .execGrant (grantStmt row) u p, true) := by
  induction rows with
  | nil => rfl
  | cons row rest ih =>
    have hr := h row (by simp)
    have hrest : ∀ r ∈ rest, execOk (grantStmt r) = true := fun r hm => h r (by simp [hm])
    simp [runGrants, hr, ih hrest]

/-- When some rewritten statement fails, the grant loop reports failure. -/
theorem runGrants_fail (execOk : PyStr → Bool) (u p : PyStr) (rows : List PyStr)
    (h : ∃ row ∈ rows, execOk (grantStmt row) = false) :
    (runGrants execOk u p rows).2 = false := by
  induction rows with
  | nil => simp at h
  | cons row rest ih =>
    by_cases hr : execOk (grantStmt row)
    · obtain ⟨r, hmem, hfail⟩ := h
      rcases List.mem_cons.mp hmem with rfl | hmem'
      · rw [hr] at hfail
        cases hfail
      · simp [runGrants, hr]
        exact ih ⟨r, hmem', hfail⟩
    · simp [runGrants, hr]

/-- C2 (confirmed): once setSecret reaches grant replication, the commit is
issued exactly once and only after every rewritten statement has executed
successfully; if any statement fails, no commit is performed and the whole
batch is discarded, while the master connection is closed on the error path
as well as on the success path. -/
theorem set_secret_commit_atomicity (env : SetSecretEnv) (a : PyStr)
    (hp : env.pendingLoginOk = false)
    (halt : get_alt_username env.current_dict.username = .ok env.pending_dict.username)
    (hhost : env.current_dict.host = env.pending_dict.host)
    (hcl : env.currentLoginOk = true)
    (harn : env.current_dict.masterarn = some a)
    (htrust : env.current_dict.host = env.master_dict.host ∨
      is_rds_replica_database env.current_dict env.master_dict env.describe = true)
    (hml : env.masterLoginOk = true) :
    ((∀ row ∈ env.grantRows, env.execOk (grantStmt row) = true) →
      set_secret env =
        (.ok (), .closeConn .current :: .showGrants env.current_dict.username ::
          ((env.grantRows.map fun row =>
              .execGrant (grantStmt row) env.pending_dict.username
                env.pending_dict.password) ++
            [.commit, .closeConn .master])) ∧
      (set_secret env).2.count .commit = 1) ∧
    ((∃ row ∈ env.grantRows, env.execOk (grantStmt row) = false) →
      (set_secret env).1 = .error .grantExecFailed ∧
      DbEvent.commit ∉ (set_secret env).2 ∧
      DbEvent.closeConn .master ∈ (set_secret env).2) := by
  have htrust' : ¬(env.current_dict.host ≠ env.master_dict.host ∧
      ¬ is_rds_replica_database env.current_dict env.master_dict env.describe = true) := by
    rcases htrust with h | h
    · exact fun hc => hc.1 h
    · exact fun hc => hc.2 h
  constructor
  · intro hall
    have hrg := runGrants_all_ok env.execOk env.pending_dict.username
      env.pending_dict.password env.grantRows hall
    have hss : set_secret env =
        (.ok (), .closeConn .current :: .showGrants env.current_dict.username ::
          ((env.grantRows.map fun row =>
              .execGrant (grantStmt row) env.pending_dict.username
                env.pending_dict.password) ++
            [.commit, .closeConn .master])) := by
      simp [set_secret, hp, halt, hhost, hcl, harn, htrust', hml, hrg]
      intro hne
      rcases htrust with h | h
      · exact absurd (hhost.symm.trans h) hne
      · exact h
    refine ⟨hss, ?_⟩
    have hmap : (env.grantRows.map fun row =>
        DbEvent.execGrant (grantStmt row) env.pending_dict.username
          env.pending_dict.password).count DbEvent.commit = 0 := by
      rw [List.count_eq_zero]
      intro hmem
      obtain ⟨row, _, heq⟩ := List.mem_map.mp hmem
      cases heq
    rw [hss]
    simp [List.count_cons, List.count_append, hmap]
  · intro hex
    have hfail := runGrants_fail env.execOk env.pending_dict.username
      env.pending_dict.password env.grantRows hex
    have hnc := runGrants_no_commit env.execOk env.pending_dict.username
      env.pending_dict.password env.grantRows
    have hss : set_secret env =
        (.error .grantExecFailed, .closeConn .current ::
          .showGrants env.current_dict.username ::
          ((runGrants env.execOk env.pending_dict.username
              env.pending_dict.password env.grantRows).1 ++ [.closeConn .master])) := by
      simp [set_secret, hp, halt, hhost, hcl, harn, htrust', hml, hfail]
      intro hne
      rcases htrust with h | h
      · exact absurd (hhost.symm.trans h) hne
      · exact h
    refine ⟨by rw [hss], ?_, ?_⟩
    · rw [hss]
      simp [hnc]
    · rw [hss]
      simp

/-- Witness for C2: a concrete run with one grant row whose rewritten
statement succeeds commits exactly once. -/
theorem set_secret_commit_atomicity_witness :
    ((set_secret
      { current_dict :=
          { engine := "mariadb".data, host := "db1".data, username := "bob".data,
            password := "pc".data, dbname := none, port := none,
            masterarn := some "arn:m".data },
        pending_dict :=
          { engine := "mariadb".data, host := "db1".data, username := "bob_clone".data,
            password := "pp".data, dbname := none, port := none, masterarn := none },
        master_dict :=
          { engine := "mariadb".data, host := "db1".data, username := "root".data,
            password := "pm".data, dbname := none, port := none, masterarn := none },
        pendingLoginOk := false, currentLoginOk := true, masterLoginOk := true,
        describe := fun _ => .raised,
        grantRows := ["GRANT ALL PRIVILEGES ON mydb.* TO bob".data],
        execOk := fun _ => true }).2).count DbEvent.commit = 1 :=
  ((set_secret_commit_atomicity
      { current_dict :=
          { engine := "mariadb".data, host := "db1".data, username := "bob".data,
            password := "pc".data, dbname := none, port := none,
            masterarn := some "arn:m".data },
        pending_dict :=
          { engine := "mariadb".data, host := "db1".data, username := "bob_clone".data,
            password := "pp".data, dbname := none, port := none, masterarn := none },
        master_dict :=
          { engine := "mariadb".data, host := "db1".data, username := "root".data,
            password := "pm".data, dbname := none, port := none, masterarn := none },
        pendingLoginOk := false, currentLoginOk := true, masterLoginOk := true,
        describe := fun _ => .raised,
        grantRows := ["GRANT ALL PRIVILEGES ON mydb.* TO bob".data],
        execOk := fun _ => true } "arn:m".data
      (by decide) (by decide) (by decide) (by decide) (by decide)
      (.inl (by decide)) (by decide)).1
    (by intro row h; rfl)).2

/-- C3 (confirmed): when setSecret reaches the master-host check with a
current host different from the master host and the replica topology check
does not confirm a replica relationship, it raises the untrusted-host error
and performs zero database write statements; the topology check is
unconfirmed in particular whenever the inventory lookup raises or returns no
instance. -/
theorem set_secret_untrusted_host (env : SetSecretEnv) (a : PyStr)
    (hp : env.pendingLoginOk = false)
    (halt : get_alt_username env.current_dict.username = .ok env.pending_dict.username)
    (hhost : env.current_dict.host = env.pending_dict.host)
    (hcl : env.currentLoginOk = true)
    (harn : env.current_dict.masterarn = some a)
    (hdiff : env.current_dict.host ≠ env.master_dict.host)
    (hrep : is_rds_replica_database env.current_dict env.master_dict env.describe = false) :
    set_secret env = (.error .untrustedHost, [.closeConn .current]) ∧
    (∀ e ∈ (set_secret env).2, isDbWriteEvent e = false) ∧
    (∀ describe2 : PyStr → DescribeResult,
      describe2 (instanceId env.current_dict.host) = .raised →
      is_rds_replica_database env.current_dict env.master_dict describe2 = false) ∧
    (∀ describe2 : PyStr → DescribeResult,
      describe2 (instanceId env.current_dict.host) = .ok [] →
      is_rds_replica_database env.current_dict env.master_dict describe2 = false) := by
  have hdiff2 : env.pending_dict.host ≠ env.master_dict.host := fun h =>
    hdiff (hhost.trans h)
  have hss : set_secret env = (.error .untrustedHost, [.closeConn .current]) := by
    simp [set_secret, hp, halt, hhost, hcl, harn, hdiff2, hrep]
  refine ⟨hss, ?_, ?_, ?_⟩
  · rw [hss]
    intro e he
    rcases List.mem_singleton.mp he with rfl
    rfl
  · intro describe2 h
    simp [is_rds_replica_database, h]
  · intro describe2 h
    simp [is_rds_replica_database, h]

/-- Witness for C3: a concrete run whose inventory lookup raises yields the
untrusted-host error with only the current probe connection closed. -/
theorem set_secret_untrusted_host_witness :
    set_secret
      { current_dict :=
          { engine := "mariadb".data, host := "db2.x".data, username := "bob".data,
            password := "pc".data, dbname := none, port := none,
            masterarn := some "arn:m".data },
        pending_dict :=
          { engine := "mariadb".data, host := "db2.x".data, username := "bob_clone".data,
            password := "pp".data, dbname := none, port := none, masterarn := none },
        master_dict :=
          { engine := "mariadb".data, host := "db1.x".data, username := "root".data,
            password := "pm".data, dbname := none, port := none, masterarn := none },
        pendingLoginOk := false, currentLoginOk := true, masterLoginOk := true,
        describe := fun _ => .raised,
        grantRows := [], execOk := fun _ => true } =
      (.error .untrustedHost, [.closeConn .current]) :=
  (set_secret_untrusted_host
      { current_dict :=
          { engine := "mariadb".data, host := "db2.x".data, username := "bob".data,
            password := "pc".data, dbname := none, port := none,
            masterarn := some "arn:m".data },
        pending_dict :=
          { engine := "mariadb".data, host := "db2.x".data, username := "bob_clone".data,
            password := "pp".data, dbname := none, port := none, masterarn := none },
        master_dict :=
          { engine := "mariadb".data, host := "db1.x".data, username := "root".data,
            password := "pm".data, dbname := none, port := none, masterarn := none },
        pendingLoginOk := false, currentLoginOk := true, masterLoginOk := true,
        describe := fun _ => .raised,
        grantRows := [], execOk := fun _ => true } "arn:m".data
      (by decide) (by decide) (by decide) (by decide) (by decide)
      (by decide) (by decide)).1

/-! ## C7: createSecret idempotency and frame -/

/-- C7 (confirmed): createSecret is idempotent and frame-preserving: when a
pending credential record already exists at the token it succeeds with no
store writes; otherwise the record it stores as the `AWSPENDING` version at
the token is the current record with exactly the username and password
replaced (username by the resolved alternate, password by the freshly
generated one), all other fields unchanged. -/
theorem create_secret_idempotent_frame (env : CreateSecretEnv) :
    (∀ d, env.pendingFetch = .found d → create_secret env = (.ok (), [])) ∧
    (∀ alt, env.pendingFetch = .notFound →
      get_alt_username env.current_dict.username = .ok alt →
      ∃ v, create_secret env =
          (.ok (), [.genPassword, .putSecretValue env.token v ["AWSPENDING"]]) ∧
        v.username = alt ∧ v.password = env.randomPassword ∧
        v.engine = env.current_dict.engine ∧ v.host = env.current_dict.host ∧
        v.dbname = env.current_dict.dbname ∧ v.port = env.current_dict.port ∧
        v.masterarn = env.current_dict.masterarn) := by
  constructor
  · intro d hf
    simp [create_secret, hf]
  · intro alt hf halt
    refine ⟨{ env.current_dict with username := alt, password := env.randomPassword },
      ?_, rfl, rfl, rfl, rfl, rfl, rfl, rfl⟩
    simp [create_secret, hf, halt]

/-- Witness for C7: a concrete run with no existing pending version stores a
record whose stored username is the alternate `bob_clone`. -/
theorem create_secret_idempotent_frame_witness :
    create_secret
      { current_dict :=
          { engine := "mariadb".data, host := "db1".data, username := "bob".data,
            password := "old".data, dbname := some "app".data, port := some 3306,
            masterarn := some "arn:m".data },
        pendingFetch := .notFound, randomPassword := "fresh".data, token := "tok" } =
      (.ok (), [.genPassword,
        .putSecretValue "tok"
          { engine := "mariadb".data, host := "db1".data, username := "bob_clone".data,
            password := "fresh".data, dbname := some "app".data, port := some 3306,
            masterarn := some "arn:m".data }
          ["AWSPENDING"]]) := by
  obtain ⟨v, hv, hu, hp, he, hh, hd, hpo, hm⟩ :=
    (create_secret_idempotent_frame
      { current_dict :=
          { engine := "mariadb".data, host := "db1".data, username := "bob".data,
            password := "old".data, dbname := some "app".data, port := some 3306,
            masterarn := some "arn:m".data },
        pendingFetch := .notFound, randomPassword := "fresh".data,
        token := "tok" }).2 "bob_clone".data rfl (by decide)
  have hveq : v =
      { engine := "mariadb".data, host := "db1".data, username := "bob_clone".data,
        password := "fresh".data, dbname := some "app".data, port := some 3306,
        masterarn := some "arn:m".data } := by
    cases v
    simp_all
  rw [hveq] at hv
  exact hv

/-! ## C8: finishSecret promotion -/

/-- With distinct version ids, exactly one entry of the mapping has a given
present key. -/
theorem countP_key_eq_one (versions : List (String × List String)) (token : String)
    (hk : (versions.map Prod.fst).Nodup) (htok : token ∈ versions.map Prod.fst) :
    versions.countP (fun p => decide (p.1 = token)) = 1 := by
  induction versions with
  | nil => simp at htok
  | cons p rest ih =>
    simp only [List.map_cons, List.nodup_cons] at hk
    simp only [List.map_cons, List.mem_cons] at htok
    by_cases h : p.1 = token
    · have h0 : rest.countP (fun q => decide (q.1 = token)) = 0 := by
        rw [List.countP_eq_zero]
        intro q hq
        simp only [decide_eq_true_eq]
        intro hqt
        exact hk.1 (h ▸ hqt ▸ List.mem_map_of_mem Prod.fst hq)
      simp [List.countP_cons, h, h0]
    · rcases htok with h' | h'
      · exact absurd h'.symm h
      · simp [List.countP_cons, h, ih hk.2 h']

/-- When exactly the entries keyed by `curVer` carry `AWSCURRENT` and
`curVer` is present, the loop of `finish_secret` finds `curVer`. -/
theorem findCurrent_unique (versions : List (String × List String)) (curVer : String)
    (hc : curVer ∈ versions.map Prod.fst)
    (hcur : ∀ p ∈ versions, ("AWSCURRENT" ∈ p.2 ↔ p.1 = curVer)) :
    findCurrent versions = some curVer := by
  induction versions with
  | nil => simp at hc
  | cons p rest ih =>
    obtain ⟨v, st⟩ := p
    by_cases hmem : "AWSCURRENT" ∈ st
    · have hv : v = curVer := (hcur (v, st) (by simp)).mp hmem
      simp [findCurrent, hmem, hv]
    · have hne : v ≠ curVer := fun h => hmem ((hcur (v, st) (by simp)).mpr h)
      simp only [List.map_cons, List.mem_cons] at hc
      rcases hc with h' | h'
      · exact absurd h'.symm hne
      · simp only [findCurrent, if_neg hmem]
        exact ih h' (fun q hq => hcur q (by simp [hq]))

/-- Moving the `AWSCURRENT` label from the unique version that carries it
onto a present, distinct token leaves exactly one version carrying it. -/
theorem countCurrent_update (versions : List (String × List String))
    (token curVer : String)
    (hk : (versions.map Prod.fst).Nodup)
    (hs : ∀ p ∈ versions, p.2.Nodup)
    (htok : token ∈ versions.map Prod.fst)
    (hne : curVer ≠ token)
    (hcur : ∀ p ∈ versions, ("AWSCURRENT" ∈ p.2 ↔ p.1 = curVer)) :
    countCurrent (update_secret_version_stage versions token (some curVer)) = 1 := by
  unfold countCurrent update_secret_version_stage
  rw [List.countP_map]
  rw [List.countP_congr (q := fun p => decide (p.1 = token)) ?_]
  · exact countP_key_eq_one versions token hk htok
  · intro p hp
    obtain ⟨w, st⟩ := p
    simp only [Function.comp]
    by_cases hw : w = token
    · have hwc : ¬ some w = some curVer := by
        simp [hw]
        exact fun h => hne (h.symm)
      simp only [if_neg hwc, if_pos hw]
      by_cases hmem : "AWSCURRENT" ∈ st
      · simp [hmem, hw]
      · simp [hmem, hw]
    · by_cases hwc : w = curVer
      · have hsome : some w = some curVer := by rw [hwc]
        simp only [if_pos hsome, if_neg hw]
        have hnodup := hs (w, st) hp
        simp only [decide_eq_true_eq]
        rw [hnodup.mem_erase_iff]
        simp [hw]
      · have hsome : ¬ some w = some curVer := by simp [hwc]
        simp only [if_neg hsome, if_neg hw]
        have := hcur (w, st) hp
        simp only [decide_eq_true_eq]
        simp [this, hwc, hw]

/-- C8 (confirmed): finishSecret is an idempotent promotion: under the stage
invariant (distinct version ids, duplicate-free stage sets, the token
present, and exactly the versions keyed by `curVer` labeled `AWSCURRENT`),
if the version labeled `AWSCURRENT` is already the token's version it
returns the mapping unchanged with zero label moves; otherwise it issues
exactly one label-move operation; and in both cases exactly one version is
labeled `AWSCURRENT` afterwards, regardless of how many versions existed. -/
theorem finish_secret_promotion (versions : List (String × List String))
    (token curVer : String)
    (hk : (versions.map Prod.fst).Nodup)
    (hs : ∀ p ∈ versions, p.2.Nodup)
    (htok : token ∈ versions.map Prod.fst)
    (hc : curVer ∈ versions.map Prod.fst)
    (hcur : ∀ p ∈ versions, ("AWSCURRENT" ∈ p.2 ↔ p.1 = curVer)) :
    (curVer = token → finish_secret versions token = (versions, 0)) ∧
    (curVer ≠ token → (finish_secret versions token).2 = 1) ∧
    countCurrent (finish_secret versions token).1 = 1 := by
  have hfind := findCurrent_unique versions curVer hc hcur
  have hcount : countCurrent versions = 1 := by
    unfold countCurrent
    rw [List.countP_congr (q := fun p => decide (p.1 = curVer)) ?_]
    · exact countP_key_eq_one versions curVer hk hc
    · intro p hp
      simp [hcur p hp]
  by_cases heq : curVer = token
  · have hfs : finish_secret versions token = (versions, 0) := by
      unfold finish_secret
      rw [hfind]
      simp [heq]
    refine ⟨fun _ => hfs, fun hne => absurd heq hne, ?_⟩
    rw [hfs]
    exact hcount
  · have hfs : finish_secret versions token =
        (update_secret_version_stage versions token (some curVer), 1) := by
      unfold finish_secret
      rw [hfind]
      simp [heq]
    refine ⟨fun h => absurd h heq, fun _ => by rw [hfs], ?_⟩
    rw [hfs]
    exact countCurrent_update versions token curVer hk hs htok heq hcur

/-- Witness for C8: promoting a pending token in a two-version mapping moves
the single `AWSCURRENT` label in one operation and leaves exactly one
current version. -/
theorem finish_secret_promotion_witness :
    (finish_secret [("v1", ["AWSCURRENT"]), ("v2", ["AWSPENDING"])] "v2").2 = 1 ∧
    countCurrent (finish_secret [("v1", ["AWSCURRENT"]), ("v2", ["AWSPENDING"])] "v2").1 = 1 := by
  have h := finish_secret_promotion [("v1", ["AWSCURRENT"]), ("v2", ["AWSPENDING"])]
    "v2" "v1" (by decide) (by decide) (by decide) (by decide) (by decide)
  exact ⟨h.2.1 (by decide), h.2.2⟩

end RotationLambda
